import Mathlib

/-!
Verification of the coordinate-reconciliation and layout subsystem of
glass_synth (pdf-synth-engine).  The Python sources are shallowly embedded:
floats become exact rationals, tuples become structures, fallible functions
return Option, and the JSONL sinks are modelled as pure lists of the records
(projected to the fields the properties speak about).  Every definition is a
direct transcription of the function of the same name in the repository.
-/

/-! ## Bounding boxes and the coordinate pipeline (labels_writer.py)

ReportLab (drawing-space) boxes carry (x0, y0, x1, y1) with the origin at the
bottom-left and y increasing upward; pdfplumber (label-space) boxes carry
(x0, top, x1, bottom) with the origin at the top-left and top < bottom. -/

/-- Drawing-space (ReportLab) bounding box: x0, y_bottom, x1, y_top. -/
structure BboxRL where
  x0 : ℚ
  y0 : ℚ
  x1 : ℚ
  y1 : ℚ
deriving DecidableEq

/-- Label-space (pdfplumber) bounding box: x0, top, x1, bottom. -/
structure BboxPL where
  x0 : ℚ
  top : ℚ
  x1 : ℚ
  bottom : ℚ
deriving DecidableEq

/-- labels_writer.MIN_BBOX_WIDTH. -/
def MIN_BBOX_WIDTH : ℚ := 10

/-- labels_writer.MIN_BBOX_HEIGHT. -/
def MIN_BBOX_HEIGHT : ℚ := 5

/-- The coordinate clamp max(0, min(v, bound)) used throughout labels_writer. -/
def clamp_coord (v bound : ℚ) : ℚ := max 0 (min v bound)

/-- labels_writer.to_pdfplumber_bbox: top = H - y1, bottom = H - y0. -/
def to_pdfplumber_bbox (b : BboxRL) (page_height : ℚ) : BboxPL :=
  { x0 := b.x0, top := page_height - b.y1, x1 := b.x1, bottom := page_height - b.y0 }

/-- labels_writer.clamp_bbox_rl: clamp a drawing-space box to the page,
returning none when it collapses or violates the minimum size. -/
def clamp_bbox_rl (b : BboxRL) (page_width page_height : ℚ) : Option BboxRL :=
  let c : BboxRL :=
    ⟨clamp_coord b.x0 page_width, clamp_coord b.y0 page_height,
     clamp_coord b.x1 page_width, clamp_coord b.y1 page_height⟩
  if c.x1 ≤ c.x0 ∨ c.y1 ≤ c.y0 then none
  else if c.x1 - c.x0 < MIN_BBOX_WIDTH ∨ c.y1 - c.y0 < MIN_BBOX_HEIGHT then none
  else some c

/-- labels_writer.clamp_bbox_pl: clamp a label-space box to the page,
returning none when it collapses or violates the minimum size. -/
def clamp_bbox_pl (b : BboxPL) (page_width page_height : ℚ) : Option BboxPL :=
  let c : BboxPL :=
    ⟨clamp_coord b.x0 page_width, clamp_coord b.top page_height,
     clamp_coord b.x1 page_width, clamp_coord b.bottom page_height⟩
  if c.x1 ≤ c.x0 ∨ c.bottom ≤ c.top then none
  else if c.x1 - c.x0 < MIN_BBOX_WIDTH ∨ c.bottom - c.top < MIN_BBOX_HEIGHT then none
  else some c

/-- The status returned by convert_and_validate_bbox. -/
inductive BboxStatus
  | OK
  | CLAMPED
  | DROPPED
deriving DecidableEq

/-- labels_writer.convert_and_validate_bbox: clamp in drawing space, convert,
re-clamp in label space, and report OK / CLAMPED / DROPPED. -/
def convert_and_validate_bbox (bbox_rl : BboxRL) (page_width page_height : ℚ) :
    Option BboxPL × BboxStatus :=
  match clamp_bbox_rl bbox_rl page_width page_height with
  | none => (none, BboxStatus.DROPPED)
  | some clamped_rl =>
    let bbox_pl := to_pdfplumber_bbox clamped_rl page_height
    match clamp_bbox_pl bbox_pl page_width page_height with
    | none => (none, BboxStatus.DROPPED)
    | some clamped_pl =>
      if clamped_rl ≠ bbox_rl ∨ clamped_pl ≠ bbox_pl
      then (some clamped_pl, BboxStatus.CLAMPED)
      else (some clamped_pl, BboxStatus.OK)

/-- labels_writer.compute_table_bbox_from_cells: elementwise min/max union of
the given label-space boxes, clamped to the page, none when the list is empty
or the clamped union collapses. -/
def compute_table_bbox_from_cells (cells : List BboxPL) (page_width page_height : ℚ) :
    Option BboxPL :=
  match cells with
  | [] => none
  | c :: rest =>
    let x0 := (rest.map (fun b => b.x0)).foldl min c.x0
    let top := (rest.map (fun b => b.top)).foldl min c.top
    let x1 := (rest.map (fun b => b.x1)).foldl max c.x1
    let bottom := (rest.map (fun b => b.bottom)).foldl max c.bottom
    let x0c := clamp_coord x0 page_width
    let x1c := clamp_coord x1 page_width
    let topc := clamp_coord top page_height
    let bottomc := clamp_coord bottom page_height
    if x1c ≤ x0c ∨ bottomc ≤ topc then none
    else some ⟨x0c, topc, x1c, bottomc⟩

/-! ## Characterising definitions for the clamp pipeline -/

/-- The raw (unchecked) drawing-space clamp of a box to the page. -/
def clamp_raw_rl (b : BboxRL) (page_width page_height : ℚ) : BboxRL :=
  ⟨clamp_coord b.x0 page_width, clamp_coord b.y0 page_height,
   clamp_coord b.x1 page_width, clamp_coord b.y1 page_height⟩

/-- The raw (unchecked) label-space clamp of a box to the page. -/
def clamp_raw_pl (b : BboxPL) (page_width page_height : ℚ) : BboxPL :=
  ⟨clamp_coord b.x0 page_width, clamp_coord b.top page_height,
   clamp_coord b.x1 page_width, clamp_coord b.bottom page_height⟩

/-- The condition under which the pipeline drops a drawing-space box: after
clamping to the page it collapses or violates the 10×5pt minimum size. -/
def drop_condition (b : BboxRL) (page_width page_height : ℚ) : Prop :=
  (clamp_raw_rl b page_width page_height).x1 ≤ (clamp_raw_rl b page_width page_height).x0 ∨
  (clamp_raw_rl b page_width page_height).y1 ≤ (clamp_raw_rl b page_width page_height).y0 ∨
  (clamp_raw_rl b page_width page_height).x1 - (clamp_raw_rl b page_width page_height).x0
    < MIN_BBOX_WIDTH ∨
  (clamp_raw_rl b page_width page_height).y1 - (clamp_raw_rl b page_width page_height).y0
    < MIN_BBOX_HEIGHT

instance (b : BboxRL) (pw ph : ℚ) : Decidable (drop_condition b pw ph) := by
  unfold drop_condition; exact inferInstance

/-! ## The label writer (labels_writer.write_labels)

The RenderedTable / RenderedRow / RenderedCell trees of pdf_renderer.py are
embedded keeping exactly the fields write_labels reads to decide what gets
emitted and with which bbox: cell text (only emptiness matters), drawing-space
bboxes, row types and the table's type and layout.  The identifier and
metadata fields (ids, texts, page indices, counts) are carried through to the
JSONL records verbatim and never touch the geometry, so the embedding projects
them away; each emitted record is modelled by its bbox field. -/

/-- table_templates.RowType. -/
inductive RowType
  | TEMPLATE
  | PAGE_HEADER
  | HEADER
  | BODY
  | SUBTOTAL_TOTAL
  | NOTE
deriving DecidableEq

/-- table_templates.TableType. -/
inductive TableType
  | CASH_OUT
  | CASH_IN
  | BUDGET
  | UNPAID
  | AGING
  | GL
  | OTHER
  | NON_TABLE
deriving DecidableEq

/-- table_templates.LayoutType. -/
inductive LayoutType
  | HORIZONTAL_LEDGER
  | SPLIT_LEDGER
  | VERTICAL_KV
  | MATRIX
  | RAGGED
deriving DecidableEq

/-- pdf_renderer.RenderedCell, projected to the fields write_labels reads. -/
structure RenderedCell where
  text : String
  bbox : BboxRL
deriving DecidableEq

/-- pdf_renderer.RenderedRow, projected to the fields write_labels reads. -/
structure RenderedRow where
  bbox : BboxRL
  row_type : RowType
  cells : List RenderedCell
deriving DecidableEq

/-- pdf_renderer.RenderedTable, projected to the fields write_labels reads. -/
structure RenderedTable where
  table_type : TableType
  layout_type : LayoutType
  rows : List RenderedRow
deriving DecidableEq

/-- non_table_regions.NonTableRegion, projected to its drawing-space bbox
(non_table_to_model1_label always emits a non-empty bbox list, so write_labels
always takes the convert-and-validate branch for it). -/
structure NonTableRegion where
  bbox : BboxRL
deriving DecidableEq

/-- The per-row inner loop of write_labels over a row's cells: skip empty-text
cells, convert and validate each remaining cell bbox, skip the DROPPED ones,
and keep the converted boxes in order. -/
def row_converted_cells (pw ph : ℚ) (row : RenderedRow) : List BboxPL :=
  row.cells.filterMap (fun cell =>
    if cell.text = "" then none
    else if (convert_and_validate_bbox cell.bbox pw ph).2 = BboxStatus.DROPPED then none
    else (convert_and_validate_bbox cell.bbox pw ph).1)

/-- The bboxes of the label records one row contributes in write_labels:
model2 row record, model3 token records, cells.jsonl records, and the cell
boxes collected into valid_cell_bboxes for the table-level union. -/
structure RowLabels where
  row_label : Option BboxPL
  token_labels : List BboxPL
  cell_labels : List BboxPL
  table_cells : List BboxPL
deriving DecidableEq

/-- The per-row body of the write_labels loop: a DROPPED row bbox skips the
entire row (the continue at the top of the loop), otherwise the row record is
emitted only for cash tables with an eligible layout, and every non-empty,
non-DROPPED cell is emitted to cells.jsonl (plus model3 for cash tables) and
collected for the table union unless the row is a TEMPLATE row. -/
def process_row (is_cash_valid : Bool) (pw ph : ℚ) (row : RenderedRow) : RowLabels :=
  if (convert_and_validate_bbox row.bbox pw ph).2 = BboxStatus.DROPPED then ⟨none, [], [], []⟩
  else
    { row_label := if is_cash_valid then (convert_and_validate_bbox row.bbox pw ph).1 else none
      token_labels := if is_cash_valid then row_converted_cells pw ph row else []
      cell_labels := row_converted_cells pw ph row
      table_cells :=
        if row.row_type = RowType.TEMPLATE then [] else row_converted_cells pw ph row }

/-- write_labels: is_cash and is_valid_layout combined (models 2 and 3 only
train on cash tables in HORIZONTAL_LEDGER and SPLIT_LEDGER layouts). -/
def is_cash_valid_layout (t : RenderedTable) : Bool :=
  decide ((t.table_type = TableType.CASH_OUT ∨ t.table_type = TableType.CASH_IN) ∧
    (t.layout_type = LayoutType.HORIZONTAL_LEDGER ∨ t.layout_type = LayoutType.SPLIT_LEDGER))

/-- write_labels: the valid_cell_bboxes list a table accumulates across its
rows (the cell boxes that survive row-level skipping, empty-text skipping,
cell validation and the TEMPLATE-row exclusion), in emission order. -/
def table_valid_cell_bboxes (pw ph : ℚ) (t : RenderedTable) : List BboxPL :=
  ((t.rows.map (process_row (is_cash_valid_layout t) pw ph)).map
    (fun o => o.table_cells)).flatten

/-- The bboxes of the label records one table produces in write_labels. -/
structure TableLabels where
  table_label : Option BboxPL
  row_labels : List BboxPL
  token_labels : List BboxPL
  cell_labels : List BboxPL
deriving DecidableEq

/-- The per-table body of the write_labels loop: process every row, then
compute the table bbox from the collected valid cell boxes; a table with no
valid cells gets no model1 record (table_label = none). -/
def process_table (pw ph : ℚ) (t : RenderedTable) : TableLabels :=
  { table_label := compute_table_bbox_from_cells (table_valid_cell_bboxes pw ph t) pw ph
    row_labels := (t.rows.map (process_row (is_cash_valid_layout t) pw ph)).filterMap
      (fun o => o.row_label)
    token_labels := ((t.rows.map (process_row (is_cash_valid_layout t) pw ph)).map
      (fun o => o.token_labels)).flatten
    cell_labels := ((t.rows.map (process_row (is_cash_valid_layout t) pw ph)).map
      (fun o => o.cell_labels)).flatten }

/-- The non-table branch of write_labels: the region's bbox is converted and
validated and the record is written only when a converted bbox came back. -/
def process_non_table (pw ph : ℚ) (r : NonTableRegion) : Option BboxPL :=
  (convert_and_validate_bbox r.bbox pw ph).1

/-- Every bbox field write_labels writes to the four JSONL files, in order:
per table the model1 table record (if any), the model2 row records, the
model3 token records and the cells.jsonl records, then the model1 records of
the surviving non-table regions. -/
def write_labels_bboxes (tables : List RenderedTable) (regions : List NonTableRegion)
    (pw ph : ℚ) : List BboxPL :=
  (tables.map (fun t =>
    (process_table pw ph t).table_label.toList ++ (process_table pw ph t).row_labels ++
    (process_table pw ph t).token_labels ++ (process_table pw ph t).cell_labels)).flatten
  ++ regions.filterMap (process_non_table pw ph)

/-- The bbox validity predicate of the spec (testable property "Bbox
validity"): x1 > x0, bottom > top, and the box lies inside the page. -/
def valid_label_bbox (b : BboxPL) (pw ph : ℚ) : Prop :=
  0 ≤ b.x0 ∧ b.x0 < b.x1 ∧ b.x1 ≤ pw ∧ 0 ≤ b.top ∧ b.top < b.bottom ∧ b.bottom ≤ ph

instance (b : BboxPL) (pw ph : ℚ) : Decidable (valid_label_bbox b pw ph) := by
  unfold valid_label_bbox; exact inferInstance

/-- The raw elementwise min/max union of label-space boxes, as the spec words
the aggregation rule (no clamping, none on the empty list). -/
def bbox_union_raw : List BboxPL → Option BboxPL
  | [] => none
  | c :: rest =>
    some ⟨(rest.map (fun b => b.x0)).foldl min c.x0,
          (rest.map (fun b => b.top)).foldl min c.top,
          (rest.map (fun b => b.x1)).foldl max c.x1,
          (rest.map (fun b => b.bottom)).foldl max c.bottom⟩

/-- The contributing set exactly as claim C2 words it: the
converted-and-validated bboxes of the table's non-empty-text cells, excluding
cells of TEMPLATE-type rows — with no regard to whether the owning row's own
bbox was dropped.  This is the spec-side definition to compare against the
code's table_valid_cell_bboxes. -/
def spec_contributing_cells (pw ph : ℚ) (t : RenderedTable) : List BboxPL :=
  (t.rows.map (fun row =>
    if row.row_type = RowType.TEMPLATE then [] else row_converted_cells pw ph row)).flatten

/-! ## Concrete fixtures used by witnesses and counterexamples -/

/-- A 540×20pt HEADER row at the top of a 612×792 page with one 100×20 cell. -/
def cx_rowA : RenderedRow :=
  ⟨⟨36, 100, 576, 120⟩, RowType.HEADER, [⟨"x", ⟨36, 100, 136, 120⟩⟩]⟩

/-- A BODY row whose own bbox is degenerate (5×2pt, below the 10×5 minimum,
hence DROPPED) but whose single cell has a perfectly valid 100×40 bbox. -/
def cx_rowB : RenderedRow :=
  ⟨⟨36, 98, 41, 100⟩, RowType.BODY, [⟨"y", ⟨200, 50, 300, 90⟩⟩]⟩

/-- A cash table holding only the valid row. -/
def cx_table_c1 : RenderedTable :=
  ⟨TableType.CASH_OUT, LayoutType.HORIZONTAL_LEDGER, [cx_rowA]⟩

/-- A cash table holding a valid row and a dropped row with a valid cell. -/
def cx_table_c2 : RenderedTable :=
  ⟨TableType.CASH_OUT, LayoutType.HORIZONTAL_LEDGER, [cx_rowA, cx_rowB]⟩

/-- A cash table holding only the dropped row with a valid cell. -/
def cx_table_c4 : RenderedTable :=
  ⟨TableType.CASH_OUT, LayoutType.HORIZONTAL_LEDGER, [cx_rowB]⟩

/-! ## Table templates (table_templates.py) -/

/-- table_templates.SemanticType. -/
inductive SemanticType
  | DATE
  | VENDOR
  | ACCOUNT
  | AMOUNT
  | OTHER
  | INVOICE_NUMBER
  | CHECK_NUMBER
  | BALANCE
  | STATUS
  | VENDOR_CODE
  | UNIT_CODE
  | CHARGE_TYPE
deriving DecidableEq

/-- table_templates.ColumnSpec. -/
structure ColumnSpec where
  name : String
  semantic_type : SemanticType
  width_ratio : ℚ
  alignment : String
deriving DecidableEq

/-- table_templates.TableTemplate (the dataclass fields, in declaration
order; title_options carried as data, floats as exact rationals). -/
structure TableTemplate where
  vendor_system : String
  table_type : TableType
  title_options : List String
  column_specs : List ColumnSpec
  supports_subtotals : Bool
  typical_row_count_range : ℕ × ℕ
  has_grid_lines : Bool
  font_name : String
  font_size : ℕ
  header_font_size : ℕ
  row_height : ℚ
deriving DecidableEq

/-- The dataclass-generated initializer of TableTemplate: it assigns the
fields and performs no validation of any kind — in particular it never calls
validate_template, and neither does any template constructor or caller in the
repository — so construction cannot raise; it is modelled with an explicit
error channel to state exactly that. -/
def TableTemplate.dataclass_init (vendor_system : String) (table_type : TableType)
    (title_options : List String) (column_specs : List ColumnSpec)
    (supports_subtotals : Bool) (typical_row_count_range : ℕ × ℕ)
    (has_grid_lines : Bool) (font_name : String) (font_size : ℕ)
    (header_font_size : ℕ) (row_height : ℚ) : Except String TableTemplate :=
  Except.ok ⟨vendor_system, table_type, title_options, column_specs, supports_subtotals,
    typical_row_count_range, has_grid_lines, font_name, font_size, header_font_size,
    row_height⟩

/-- table_templates.validate_template: ok iff the ratio sum lies in
[0.98, 1.02], otherwise an error (the Python message interpolates the sum;
the text is abstracted here). -/
def validate_template (template : TableTemplate) : Except String Bool :=
  if ¬ (0.98 ≤ (template.column_specs.map (fun s => s.width_ratio)).sum ∧
        (template.column_specs.map (fun s => s.width_ratio)).sum ≤ 1.02)
  then Except.error ("Column widths sum out of expected range")
  else Except.ok true

/-- table_templates.get_cash_out_template. -/
def get_cash_out_template (vendor : String) : TableTemplate :=
  if vendor = "AKAM_NEW" then
    { vendor_system := "AKAM_NEW"
      table_type := TableType.CASH_OUT
      title_options := ["Schedule B - Statement of Paid Bills", "Cash Disbursements",
        "Paid Items", "Check Register", "Disbursement Journal"]
      column_specs := [
        ⟨"Invoice Date", SemanticType.DATE, 0.07, "left"⟩,
        ⟨"Check Date", SemanticType.DATE, 0.06, "left"⟩,
        ⟨"VEND", SemanticType.VENDOR_CODE, 0.04, "center"⟩,
        ⟨"Vendor", SemanticType.VENDOR, 0.13, "left"⟩,
        ⟨"Invoice #", SemanticType.INVOICE_NUMBER, 0.08, "left"⟩,
        ⟨"P/O", SemanticType.OTHER, 0.05, "center"⟩,
        ⟨"GL Code", SemanticType.ACCOUNT, 0.07, "left"⟩,
        ⟨"Description", SemanticType.OTHER, 0.13, "left"⟩,
        ⟨"Check #", SemanticType.CHECK_NUMBER, 0.06, "center"⟩,
        ⟨"Amount", SemanticType.AMOUNT, 0.11, "right"⟩,
        ⟨"Balance", SemanticType.BALANCE, 0.10, "right"⟩,
        ⟨"Remarks", SemanticType.OTHER, 0.10, "left"⟩]
      supports_subtotals := true
      typical_row_count_range := (15, 60)
      has_grid_lines := true
      font_name := "Helvetica"
      font_size := 8
      header_font_size := 9
      row_height := 13 }
  else if vendor = "AKAM_OLD" ∨ vendor = "MDS" ∨ vendor = "LINDENWOOD" then
    { vendor_system := vendor
      table_type := TableType.CASH_OUT
      title_options := ["Statement of Disbursements",
        "Schedule B - Statement of Paid Bills", "Check Register"]
      column_specs := [
        ⟨"Date", SemanticType.DATE, 0.07, "left"⟩,
        ⟨"CK NO", SemanticType.CHECK_NUMBER, 0.06, "center"⟩,
        ⟨"VEND", SemanticType.VENDOR_CODE, 0.04, "center"⟩,
        ⟨"Paid To", SemanticType.VENDOR, 0.14, "left"⟩,
        ⟨"Invoice #", SemanticType.INVOICE_NUMBER, 0.08, "left"⟩,
        ⟨"P/O", SemanticType.OTHER, 0.08, "center"⟩,
        ⟨"G/L", SemanticType.ACCOUNT, 0.10, "left"⟩,
        ⟨"Expense Type", SemanticType.OTHER, 0.06, "left"⟩,
        ⟨"Amount", SemanticType.AMOUNT, 0.12, "right"⟩,
        ⟨"Balance", SemanticType.BALANCE, 0.10, "right"⟩,
        ⟨"Remarks", SemanticType.OTHER, 0.15, "left"⟩]
      supports_subtotals := true
      typical_row_count_range := (20, 80)
      has_grid_lines := true
      font_name := "Courier"
      font_size := 8
      header_font_size := 9
      row_height := 12 }
  else
    { vendor_system := vendor
      table_type := TableType.CASH_OUT
      title_options := ["Cash Disbursements", "Check Register", "Payment Register"]
      column_specs := [
        ⟨"Date", SemanticType.DATE, 0.08, "left"⟩,
        ⟨"Check #", SemanticType.CHECK_NUMBER, 0.07, "center"⟩,
        ⟨"Vendor", SemanticType.VENDOR, 0.16, "left"⟩,
        ⟨"Invoice #", SemanticType.INVOICE_NUMBER, 0.09, "left"⟩,
        ⟨"GL Code", SemanticType.ACCOUNT, 0.09, "left"⟩,
        ⟨"Description", SemanticType.OTHER, 0.14, "left"⟩,
        ⟨"P/O", SemanticType.OTHER, 0.07, "center"⟩,
        ⟨"Amount", SemanticType.AMOUNT, 0.12, "right"⟩,
        ⟨"Balance", SemanticType.BALANCE, 0.10, "right"⟩,
        ⟨"Remarks", SemanticType.OTHER, 0.08, "left"⟩]
      supports_subtotals := true
      typical_row_count_range := (15, 60)
      has_grid_lines := true
      font_name := "Helvetica"
      font_size := 9
      header_font_size := 10
      row_height := 14 }

/-- table_templates.get_cash_in_template. -/
def get_cash_in_template (vendor : String) : TableTemplate :=
  if vendor = "AKAM_NEW" then
    { vendor_system := "AKAM_NEW"
      table_type := TableType.CASH_IN
      title_options := ["Schedule D - Collection Status", "Cash Receipts", "Deposits",
        "Revenue Receipts", "Collection Report"]
      column_specs := [
        ⟨"Date", SemanticType.DATE, 0.06, "left"⟩,
        ⟨"Acct No", SemanticType.UNIT_CODE, 0.06, "left"⟩,
        ⟨"Unit", SemanticType.UNIT_CODE, 0.04, "center"⟩,
        ⟨"Owner", SemanticType.VENDOR, 0.12, "left"⟩,
        ⟨"Open Bal", SemanticType.BALANCE, 0.08, "right"⟩,
        ⟨"Base Charge", SemanticType.AMOUNT, 0.08, "right"⟩,
        ⟨"Shares", SemanticType.AMOUNT, 0.08, "right"⟩,
        ⟨"GL Code", SemanticType.ACCOUNT, 0.10, "left"⟩,
        ⟨"Receipt #", SemanticType.CHECK_NUMBER, 0.06, "center"⟩,
        ⟨"Amount", SemanticType.AMOUNT, 0.10, "right"⟩,
        ⟨"Balance", SemanticType.BALANCE, 0.10, "right"⟩,
        ⟨"Status", SemanticType.STATUS, 0.06, "center"⟩,
        ⟨"Description", SemanticType.OTHER, 0.06, "left"⟩]
      supports_subtotals := true
      typical_row_count_range := (10, 40)
      has_grid_lines := true
      font_name := "Helvetica"
      font_size := 8
      header_font_size := 9
      row_height := 13 }
  else if vendor = "COOP" ∨ vendor = "LINDENWOOD" then
    { vendor_system := vendor
      table_type := TableType.CASH_IN
      title_options := ["Collection Status", "Shareholder Receipts",
        "Maintenance Collection", "Schedule D - Collection Status"]
      column_specs := [
        ⟨"Date", SemanticType.DATE, 0.06, "left"⟩,
        ⟨"Acct", SemanticType.UNIT_CODE, 0.06, "left"⟩,
        ⟨"Apt", SemanticType.UNIT_CODE, 0.05, "center"⟩,
        ⟨"Resident", SemanticType.VENDOR, 0.14, "left"⟩,
        ⟨"Shares", SemanticType.AMOUNT, 0.06, "right"⟩,
        ⟨"Open Bal", SemanticType.BALANCE, 0.09, "right"⟩,
        ⟨"Base Charge", SemanticType.AMOUNT, 0.09, "right"⟩,
        ⟨"Receipt #", SemanticType.CHECK_NUMBER, 0.06, "center"⟩,
        ⟨"Paid", SemanticType.AMOUNT, 0.11, "right"⟩,
        ⟨"Close Bal", SemanticType.BALANCE, 0.11, "right"⟩,
        ⟨"Status", SemanticType.STATUS, 0.09, "center"⟩,
        ⟨"Charges", SemanticType.OTHER, 0.08, "left"⟩]
      supports_subtotals := true
      typical_row_count_range := (10, 50)
      has_grid_lines := true
      font_name := "Helvetica"
      font_size := 8
      header_font_size := 9
      row_height := 13 }
  else
    { vendor_system := vendor
      table_type := TableType.CASH_IN
      title_options := ["Cash Receipts", "Deposits", "Collection Report"]
      column_specs := [
        ⟨"Date", SemanticType.DATE, 0.07, "left"⟩,
        ⟨"Acct", SemanticType.UNIT_CODE, 0.05, "left"⟩,
        ⟨"Unit", SemanticType.UNIT_CODE, 0.05, "center"⟩,
        ⟨"Owner", SemanticType.VENDOR, 0.14, "left"⟩,
        ⟨"Open Bal", SemanticType.BALANCE, 0.09, "right"⟩,
        ⟨"Base Charge", SemanticType.AMOUNT, 0.09, "right"⟩,
        ⟨"GL Code", SemanticType.ACCOUNT, 0.10, "left"⟩,
        ⟨"Receipt #", SemanticType.CHECK_NUMBER, 0.07, "center"⟩,
        ⟨"Amount", SemanticType.AMOUNT, 0.12, "right"⟩,
        ⟨"Balance", SemanticType.BALANCE, 0.12, "right"⟩,
        ⟨"Status", SemanticType.STATUS, 0.10, "center"⟩]
      supports_subtotals := true
      typical_row_count_range := (10, 40)
      has_grid_lines := true
      font_name := "Helvetica"
      font_size := 9
      header_font_size := 10
      row_height := 14 }

/-- table_templates.get_budget_template. -/
def get_budget_template (vendor : String) : TableTemplate :=
  { vendor_system := vendor
    table_type := TableType.BUDGET
    title_options := ["Income Statement", "Budget vs Actual",
      "Statement of Revenue and Expenses", "Operating Budget Comparison",
      "Financial Summary"]
    column_specs := [
      ⟨"Account", SemanticType.ACCOUNT, 0.30, "left"⟩,
      ⟨"Current", SemanticType.AMOUNT, 0.14, "right"⟩,
      ⟨"YTD Actual", SemanticType.AMOUNT, 0.14, "right"⟩,
      ⟨"YTD Budget", SemanticType.AMOUNT, 0.14, "right"⟩,
      ⟨"Annual Budget", SemanticType.AMOUNT, 0.14, "right"⟩,
      ⟨"Variance", SemanticType.AMOUNT, 0.14, "right"⟩]
    supports_subtotals := true
    typical_row_count_range := (20, 80)
    has_grid_lines := true
    font_name := "Helvetica"
    font_size := 9
    header_font_size := 10
    row_height := 14 }

/-- table_templates.get_unpaid_template. -/
def get_unpaid_template (vendor : String) : TableTemplate :=
  { vendor_system := vendor
    table_type := TableType.UNPAID
    title_options := ["Unpaid Bills", "Open Payables", "Accounts Payable Aging",
      "Outstanding Invoices", "Bills Due"]
    column_specs := [
      ⟨"Date", SemanticType.DATE, 0.10, "left"⟩,
      ⟨"Vendor", SemanticType.VENDOR, 0.22, "left"⟩,
      ⟨"Invoice #", SemanticType.INVOICE_NUMBER, 0.10, "left"⟩,
      ⟨"Due Date", SemanticType.DATE, 0.10, "left"⟩,
      ⟨"GL Code", SemanticType.ACCOUNT, 0.12, "left"⟩,
      ⟨"Description", SemanticType.OTHER, 0.18, "left"⟩,
      ⟨"Amount", SemanticType.AMOUNT, 0.18, "right"⟩]
    supports_subtotals := true
    typical_row_count_range := (10, 40)
    has_grid_lines := true
    font_name := "Helvetica"
    font_size := 9
    header_font_size := 10
    row_height := 14 }

/-- table_templates.get_aging_template. -/
def get_aging_template (vendor : String) : TableTemplate :=
  { vendor_system := vendor
    table_type := TableType.AGING
    title_options := ["Aged Receivables", "Arrears Report", "Collection Status by Age",
      "Receivables Aging Summary", "Owner Aging Report"]
    column_specs := [
      ⟨"Unit", SemanticType.VENDOR, 0.08, "left"⟩,
      ⟨"Owner", SemanticType.VENDOR, 0.18, "left"⟩,
      ⟨"Current", SemanticType.AMOUNT, 0.12, "right"⟩,
      ⟨"30 Days", SemanticType.AMOUNT, 0.12, "right"⟩,
      ⟨"60 Days", SemanticType.AMOUNT, 0.12, "right"⟩,
      ⟨"90 Days", SemanticType.AMOUNT, 0.12, "right"⟩,
      ⟨"90+ Days", SemanticType.AMOUNT, 0.12, "right"⟩,
      ⟨"Total", SemanticType.AMOUNT, 0.14, "right"⟩]
    supports_subtotals := true
    typical_row_count_range := (15, 60)
    has_grid_lines := true
    font_name := "Helvetica"
    font_size := 9
    header_font_size := 10
    row_height := 14 }

/-- table_templates.get_gl_template. -/
def get_gl_template (vendor : String) : TableTemplate :=
  { vendor_system := vendor
    table_type := TableType.GL
    title_options := ["General Ledger", "GL Detail", "Account Activity",
      "Transaction Detail", "Ledger Activity Report"]
    column_specs := [
      ⟨"Date", SemanticType.DATE, 0.10, "left"⟩,
      ⟨"Reference", SemanticType.CHECK_NUMBER, 0.10, "left"⟩,
      ⟨"Description", SemanticType.OTHER, 0.25, "left"⟩,
      ⟨"Debit", SemanticType.AMOUNT, 0.13, "right"⟩,
      ⟨"Credit", SemanticType.AMOUNT, 0.13, "right"⟩,
      ⟨"Balance", SemanticType.BALANCE, 0.14, "right"⟩,
      ⟨"GL Code", SemanticType.ACCOUNT, 0.15, "left"⟩]
    supports_subtotals := true
    typical_row_count_range := (20, 100)
    has_grid_lines := true
    font_name := "Helvetica"
    font_size := 9
    header_font_size := 10
    row_height := 14 }

/-- table_templates.get_template: dispatch by table type (OTHER and NON_TABLE
fall back to the CASH_OUT template). -/
def get_template (table_type : TableType) (vendor : String) : TableTemplate :=
  match table_type with
  | TableType.CASH_OUT => get_cash_out_template vendor
  | TableType.CASH_IN => get_cash_in_template vendor
  | TableType.BUDGET => get_budget_template vendor
  | TableType.UNPAID => get_unpaid_template vendor
  | TableType.AGING => get_aging_template vendor
  | TableType.GL => get_gl_template vendor
  | TableType.OTHER => get_cash_out_template vendor
  | TableType.NON_TABLE => get_cash_out_template vendor

/-- A TableTemplate with a single column of width ratio 2 — far outside
[0.98, 1.02] — as the dataclass initializer happily returns it. -/
def cx_bad_template : TableTemplate :=
  ⟨"X", TableType.OTHER, [], [⟨"only", SemanticType.OTHER, 2, "left"⟩], true, (10, 50),
   true, "Helvetica", 9, 10, 14⟩

/-! ## Layout engine (layout_engine.py) -/

/-- layout_engine.PageLayout (LETTER is 612×792pt, margins 36pt). -/
structure PageLayout where
  page_width : ℚ
  page_height : ℚ
  margin_left : ℚ
  margin_right : ℚ
  margin_top : ℚ
  margin_bottom : ℚ
  orientation : String
deriving DecidableEq

/-- PageLayout.portrait. -/
def PageLayout.portrait : PageLayout := ⟨612, 792, 36, 36, 36, 36, "portrait"⟩

/-- PageLayout.landscape. -/
def PageLayout.landscape : PageLayout := ⟨792, 612, 36, 36, 36, 36, "landscape"⟩

/-- PageLayout.content_width. -/
def PageLayout.content_width (l : PageLayout) : ℚ :=
  l.page_width - l.margin_left - l.margin_right

/-- PageLayout.content_height. -/
def PageLayout.content_height (l : PageLayout) : ℚ :=
  l.page_height - l.margin_top - l.margin_bottom

/-- PageLayout.content_start_x. -/
def PageLayout.content_start_x (l : PageLayout) : ℚ := l.margin_left

/-- PageLayout.content_start_y (top of the content area, drawing-space). -/
def PageLayout.content_start_y (l : PageLayout) : ℚ := l.page_height - l.margin_top

/-- The LayoutEngine's mutable cursor: current_page and current_y. -/
structure LayoutState where
  current_page : ℕ
  current_y : ℚ
deriving DecidableEq

/-- layout_engine.TablePlacement (template and title carried by the caller). -/
structure TablePlacement where
  table_index : ℕ
  page_index : ℕ
  start_x : ℚ
  start_y : ℚ
  width : ℚ
  height : ℚ
  layout_type : LayoutType
  is_split_right : Bool
deriving DecidableEq

/-- LayoutEngine.compute_table_height: title (1.5×), header (1.2×), the data
rows, and 10pt bottom padding. -/
def compute_table_height (template : TableTemplate) (num_rows : ℕ)
    (include_title include_header : Bool) : ℚ :=
  (if include_title then template.row_height * 1.5 else 0) +
  (if include_header then template.row_height * 1.2 else 0) +
  num_rows * template.row_height + 10

/-- LayoutEngine.can_fit_on_current_page. -/
def can_fit_on_current_page (layout : PageLayout) (s : LayoutState) (height : ℚ) : Bool :=
  decide (layout.margin_bottom ≤ s.current_y - height)

/-- LayoutEngine.start_new_page: increment the page counter and reset the
cursor to the top of the content area. -/
def start_new_page (layout : PageLayout) (s : LayoutState) : LayoutState :=
  ⟨s.current_page + 1, layout.content_start_y⟩

/-- LayoutEngine.place_table: width halves (minus a 20pt gutter) for split
panels, a page break is evaluated only when the placement is not the right
panel of a split pair, the right panel starts after the left panel's width
plus the gutter, and the cursor advances by height + 20pt except after the
left panel of a split pair. -/
def place_table (layout : PageLayout) (s : LayoutState) (template : TableTemplate)
    (num_data_rows : ℕ) (table_index : ℕ) (layout_type : LayoutType)
    (is_split_right : Bool) : TablePlacement × LayoutState :=
  let table_height := compute_table_height template num_data_rows true true
  let table_width :=
    if layout_type = LayoutType.SPLIT_LEDGER then (layout.content_width - 20) / 2
    else layout.content_width
  let s1 :=
    if is_split_right = false ∧ can_fit_on_current_page layout s table_height = false
    then start_new_page layout s else s
  let start_x :=
    if layout_type = LayoutType.SPLIT_LEDGER ∧ is_split_right = true
    then layout.content_start_x + table_width + 20 else layout.content_start_x
  let placement : TablePlacement :=
    ⟨table_index, s1.current_page, start_x, s1.current_y, table_width, table_height,
     layout_type, is_split_right⟩
  let s2 :=
    if layout_type ≠ LayoutType.SPLIT_LEDGER ∨ is_split_right = true
    then ⟨s1.current_page, s1.current_y - (table_height + 20)⟩ else s1
  (placement, s2)

/-! ## Template header shift (pdf_renderer._render_table) -/

/-- vendor_styles.GridStyle.  The member LINDENWOOD_TWO_SECTION is referenced
by pdf_renderer (and the spec lists a "two-section" grid style) but is absent
from the GridStyle enum in vendor_styles.py in this snapshot; it is modelled
from the spec here so the height computation can be stated for both branches. -/
inductive GridStyle
  | FULL_GRID
  | HORIZONTAL_ONLY
  | MINIMAL
  | ALTERNATING_ROWS
  | BOX_BORDERS
  | LINDENWOOD_TWO_SECTION
deriving DecidableEq

/-- PDFRenderer._get_template_header_height: 0 for no header lines; for the
two-section style 25 + min(3, n)·16 + 20; otherwise 20 + n·15. -/
def get_template_header_height (header_lines : List String) (grid_style : GridStyle) : ℚ :=
  if header_lines = [] then 0
  else if grid_style = GridStyle.LINDENWOOD_TWO_SECTION then
    25 + ((min 3 header_lines.length : ℕ) : ℚ) * 16 + 20
  else 20 + (header_lines.length : ℚ) * 15

/-- layout_engine.RowPlacement. -/
structure RowPlacement where
  row_index : ℕ
  y_top : ℚ
  y_bottom : ℚ
  row_height : ℚ
deriving DecidableEq

/-- layout_engine.CellPlacement. -/
structure CellPlacement where
  row_index : ℕ
  col_index : ℕ
  x : ℚ
  y_top : ℚ
  y_bottom : ℚ
  width : ℚ
  text : String
deriving DecidableEq

/-- The per-row part of the header-offset adjustment in _render_table:
rp.y_top -= offset and rp.y_bottom -= offset. -/
def shift_row_placement (offset : ℚ) (rp : RowPlacement) : RowPlacement :=
  { rp with y_top := rp.y_top - offset, y_bottom := rp.y_bottom - offset }

/-- The per-cell part of the header-offset adjustment in _render_table:
cp.y_top -= offset and cp.y_bottom -= offset. -/
def shift_cell_placement (offset : ℚ) (cp : CellPlacement) : CellPlacement :=
  { cp with y_top := cp.y_top - offset, y_bottom := cp.y_bottom - offset }

/-- The adjustment block of _render_table (guarded by template_header_offset
greater than 0): shift every row position, every cell position and the
placement's start_y down by the offset, before any primitive is drawn. -/
def apply_template_header_offset (offset : ℚ) (rows : List RowPlacement)
    (cells : List CellPlacement) (start_y : ℚ) :
    List RowPlacement × List CellPlacement × ℚ :=
  if 0 < offset then
    (rows.map (shift_row_placement offset), cells.map (shift_cell_placement offset),
     start_y - offset)
  else (rows, cells, start_y)

/-- _render_table's per-table draw decision: draw the template header when
there are header lines and the per-page flag is not yet set. -/
def should_draw_template (has_header_lines page_template_drawn : Bool) : Bool :=
  has_header_lines && !page_template_drawn

/-- The per-page flag after one table render: set once the header is drawn
(render_document resets it to false on every page turn). -/
def page_template_drawn_after (has_header_lines page_template_drawn : Bool) : Bool :=
  page_template_drawn || should_draw_template has_header_lines page_template_drawn

/-- How many template headers a run of table renders on one page draws,
starting from a given flag value; each list entry says whether that table
had header lines. -/
def template_draw_count : Bool → List Bool → ℕ
  | _, [] => 0
  | flag, h :: t =>
    (if should_draw_template h flag then 1 else 0) +
      template_draw_count (page_template_drawn_after h flag) t

/-! ## Row truncation per page (pdf_renderer._prepare_data_rows) -/

/-- Python int() applied to a rational: truncation toward zero. -/
def pyint (q : ℚ) : ℤ := if 0 ≤ q then Int.floor q else Int.ceil q

/-- PDFRenderer._calculate_max_data_rows: from the content height subtract
85pt for the template header, row_height·1.5 + 10 for the PAGE_HEADER,
row_height·1.2·2 for two column-header rows and 25pt bottom padding, divide
by the row height, and clamp the result into [10, 45]. -/
def calculate_max_data_rows (layout : PageLayout) (template : TableTemplate) : ℤ :=
  max 10 (min (pyint ((layout.content_height - 85 - (template.row_height * 1.5 + 10) -
    template.row_height * 1.2 * 2 - 25) / template.row_height)) 45)

/-- The record-selection step of PDFRenderer._prepare_data_rows: an empty
payload stays empty, otherwise exactly the first max_rows records are kept
(data[:max_rows]) — the rest are silently discarded, never paginated and
never reported. -/
def prepare_data_records {α : Type} (layout : PageLayout) (template : TableTemplate)
    (data : List α) : List α :=
  match data with
  | [] => []
  | _ :: _ => data.take (calculate_max_data_rows layout template).toNat

/-! ## Theorems -/

lemma clamp_coord_nonneg (v bound : ℚ) : 0 ≤ clamp_coord v bound :=
  le_max_left 0 _

lemma clamp_coord_le {bound : ℚ} (v : ℚ) (h : 0 ≤ bound) : clamp_coord v bound ≤ bound :=
  max_le h (min_le_right _ _)

lemma bound_nonneg_of_clamp_lt {a b bound : ℚ}
    (h : clamp_coord a bound < clamp_coord b bound) : 0 ≤ bound := by
  have h0 : 0 < clamp_coord b bound := lt_of_le_of_lt (clamp_coord_nonneg a bound) h
  have h1 : 0 < min b bound := by
    rcases lt_max_iff.mp h0 with h' | h'
    · exact absurd h' (lt_irrefl 0)
    · exact h'
  exact le_of_lt (lt_of_lt_of_le h1 (min_le_right _ _))

lemma clamp_coord_eq_self {v bound : ℚ} (h0 : 0 ≤ v) (h1 : v ≤ bound) :
    clamp_coord v bound = v := by
  rw [clamp_coord, min_eq_left h1, max_eq_right h0]

lemma clamp_bbox_rl_eq_some_iff {b c : BboxRL} {pw ph : ℚ} :
    clamp_bbox_rl b pw ph = some c ↔
      c = clamp_raw_rl b pw ph ∧ ¬ drop_condition b pw ph := by
  unfold clamp_bbox_rl drop_condition clamp_raw_rl
  dsimp only
  split_ifs with h1 h2
  · simp only [reduceCtorEq, false_iff, not_and, not_not]
    intro _
    tauto
  · simp only [reduceCtorEq, false_iff, not_and, not_not]
    intro _
    tauto
  · simp only [Option.some.injEq]
    constructor
    · intro h
      exact ⟨h.symm, by tauto⟩
    · intro h
      exact h.1.symm

lemma clamp_bbox_pl_eq_some_iff {b c : BboxPL} {pw ph : ℚ} :
    clamp_bbox_pl b pw ph = some c ↔
      c = clamp_raw_pl b pw ph ∧
      ¬ ((clamp_raw_pl b pw ph).x1 ≤ (clamp_raw_pl b pw ph).x0 ∨
         (clamp_raw_pl b pw ph).bottom ≤ (clamp_raw_pl b pw ph).top ∨
         (clamp_raw_pl b pw ph).x1 - (clamp_raw_pl b pw ph).x0 < MIN_BBOX_WIDTH ∨
         (clamp_raw_pl b pw ph).bottom - (clamp_raw_pl b pw ph).top < MIN_BBOX_HEIGHT) := by
  unfold clamp_bbox_pl clamp_raw_pl
  dsimp only
  split_ifs with h1 h2
  · simp only [reduceCtorEq, false_iff, not_and, not_not]
    intro _
    tauto
  · simp only [reduceCtorEq, false_iff, not_and, not_not]
    intro _
    tauto
  · simp only [Option.some.injEq]
    constructor
    · intro h
      exact ⟨h.symm, by tauto⟩
    · intro h
      exact h.1.symm

lemma clamp_bbox_rl_post {b c : BboxRL} {pw ph : ℚ} (h : clamp_bbox_rl b pw ph = some c) :
    0 ≤ c.x0 ∧ c.x0 < c.x1 ∧ c.x1 ≤ pw ∧ 0 ≤ c.y0 ∧ c.y0 < c.y1 ∧ c.y1 ≤ ph ∧
    MIN_BBOX_WIDTH ≤ c.x1 - c.x0 ∧ MIN_BBOX_HEIGHT ≤ c.y1 - c.y0 := by
  rcases clamp_bbox_rl_eq_some_iff.mp h with ⟨hc, hnot⟩
  rw [drop_condition] at hnot
  push_neg at hnot
  obtain ⟨h1, h2, h3, h4⟩ := hnot
  subst hc
  refine ⟨?_, h1, ?_, ?_, h2, ?_, h3, h4⟩
  · exact clamp_coord_nonneg _ _
  · exact clamp_coord_le _ (bound_nonneg_of_clamp_lt h1)
  · exact clamp_coord_nonneg _ _
  · exact clamp_coord_le _ (bound_nonneg_of_clamp_lt h2)

lemma clamp_bbox_pl_post {b c : BboxPL} {pw ph : ℚ} (h : clamp_bbox_pl b pw ph = some c) :
    0 ≤ c.x0 ∧ c.x0 < c.x1 ∧ c.x1 ≤ pw ∧ 0 ≤ c.top ∧ c.top < c.bottom ∧ c.bottom ≤ ph ∧
    MIN_BBOX_WIDTH ≤ c.x1 - c.x0 ∧ MIN_BBOX_HEIGHT ≤ c.bottom - c.top := by
  rcases clamp_bbox_pl_eq_some_iff.mp h with ⟨hc, hnot⟩
  push_neg at hnot
  obtain ⟨h1, h2, h3, h4⟩ := hnot
  subst hc
  refine ⟨?_, h1, ?_, ?_, h2, ?_, h3, h4⟩
  · exact clamp_coord_nonneg _ _
  · exact clamp_coord_le _ (bound_nonneg_of_clamp_lt h1)
  · exact clamp_coord_nonneg _ _
  · exact clamp_coord_le _ (bound_nonneg_of_clamp_lt h2)

lemma clamp_bbox_rl_idem {b c : BboxRL} {pw ph : ℚ} (h : clamp_bbox_rl b pw ph = some c) :
    clamp_bbox_rl c pw ph = some c := by
  obtain ⟨hx0, hxx, hx1, hy0, hyy, hy1, hw, hh⟩ := clamp_bbox_rl_post h
  have raw : clamp_raw_rl c pw ph = c := by
    unfold clamp_raw_rl
    rw [clamp_coord_eq_self hx0 (le_trans (le_of_lt hxx) hx1),
        clamp_coord_eq_self hy0 (le_trans (le_of_lt hyy) hy1),
        clamp_coord_eq_self (le_trans hx0 (le_of_lt hxx)) hx1,
        clamp_coord_eq_self (le_trans hy0 (le_of_lt hyy)) hy1]
  rw [clamp_bbox_rl_eq_some_iff]
  refine ⟨raw.symm, ?_⟩
  rw [drop_condition, raw]
  push_neg
  exact ⟨hxx, hyy, hw, hh⟩

lemma clamp_bbox_pl_idem {b c : BboxPL} {pw ph : ℚ} (h : clamp_bbox_pl b pw ph = some c) :
    clamp_bbox_pl c pw ph = some c := by
  obtain ⟨hx0, hxx, hx1, ht0, htb, hb1, hw, hh⟩ := clamp_bbox_pl_post h
  have raw : clamp_raw_pl c pw ph = c := by
    unfold clamp_raw_pl
    rw [clamp_coord_eq_self hx0 (le_trans (le_of_lt hxx) hx1),
        clamp_coord_eq_self ht0 (le_trans (le_of_lt htb) hb1),
        clamp_coord_eq_self (le_trans hx0 (le_of_lt hxx)) hx1,
        clamp_coord_eq_self (le_trans ht0 (le_of_lt htb)) hb1]
  rw [clamp_bbox_pl_eq_some_iff]
  refine ⟨raw.symm, ?_⟩
  rw [raw]
  push_neg
  exact ⟨hxx, htb, hw, hh⟩

/-- Converting an already rl-clamped box yields a label-space box on which the
safety-net re-clamp of step 3 is the identity and never drops. -/
lemma clamp_bbox_pl_of_rl {b c : BboxRL} {pw ph : ℚ} (h : clamp_bbox_rl b pw ph = some c) :
    clamp_raw_pl (to_pdfplumber_bbox c ph) pw ph = to_pdfplumber_bbox c ph ∧
    clamp_bbox_pl (to_pdfplumber_bbox c ph) pw ph = some (to_pdfplumber_bbox c ph) := by
  obtain ⟨hx0, hxx, hx1, hy0, hyy, hy1, hw, hh⟩ := clamp_bbox_rl_post h
  have hpx0 : (to_pdfplumber_bbox c ph).x0 = c.x0 := rfl
  have hpx1 : (to_pdfplumber_bbox c ph).x1 = c.x1 := rfl
  have hpt : (to_pdfplumber_bbox c ph).top = ph - c.y1 := rfl
  have hpb : (to_pdfplumber_bbox c ph).bottom = ph - c.y0 := rfl
  have raw : clamp_raw_pl (to_pdfplumber_bbox c ph) pw ph = to_pdfplumber_bbox c ph := by
    unfold clamp_raw_pl
    rw [hpx0, hpx1, hpt, hpb,
        clamp_coord_eq_self hx0 (le_trans (le_of_lt hxx) hx1),
        clamp_coord_eq_self (by linarith) (by linarith),
        clamp_coord_eq_self (le_trans hx0 (le_of_lt hxx)) hx1,
        clamp_coord_eq_self (by linarith) (by linarith)]
    rfl
  refine ⟨raw, ?_⟩
  rw [clamp_bbox_pl_eq_some_iff]
  refine ⟨raw.symm, ?_⟩
  rw [raw]
  push_neg
  rw [MIN_BBOX_WIDTH, MIN_BBOX_HEIGHT] at *
  refine ⟨by rw [hpx0, hpx1]; exact hxx, by rw [hpt, hpb]; linarith,
          by rw [hpx0, hpx1]; linarith, by rw [hpt, hpb]; linarith⟩

lemma convert_and_validate_bbox_eq_none {b : BboxRL} {pw ph : ℚ}
    (h : clamp_bbox_rl b pw ph = none) :
    convert_and_validate_bbox b pw ph = (none, BboxStatus.DROPPED) := by
  unfold convert_and_validate_bbox
  rw [h]

lemma convert_and_validate_bbox_eq_some {b c : BboxRL} {p : BboxPL} {pw ph : ℚ}
    (h1 : clamp_bbox_rl b pw ph = some c)
    (h2 : clamp_bbox_pl (to_pdfplumber_bbox c ph) pw ph = some p) :
    convert_and_validate_bbox b pw ph =
      (some p,
       if c ≠ b ∨ p ≠ to_pdfplumber_bbox c ph
       then BboxStatus.CLAMPED else BboxStatus.OK) := by
  unfold convert_and_validate_bbox
  rw [h1]
  dsimp only
  rw [h2]
  dsimp only
  split_ifs <;> rfl

/-- C3: convert_and_validate_bbox returns DROPPED exactly when the box, after
clamping to the page in drawing space, collapses or violates the 10×5pt
minimum size; otherwise it returns the clamped box converted by
top = page_height - y1, bottom = page_height - y0, with status CLAMPED when
either the drawing-space clamp or the label-space re-clamp actually changed
the box and OK otherwise. -/
theorem c3_convert_and_validate_spec (b : BboxRL) (pw ph : ℚ) :
    ((convert_and_validate_bbox b pw ph).2 = BboxStatus.DROPPED ↔ drop_condition b pw ph)
    ∧ (¬ drop_condition b pw ph →
        convert_and_validate_bbox b pw ph =
          (some (to_pdfplumber_bbox (clamp_raw_rl b pw ph) ph),
           if clamp_raw_rl b pw ph ≠ b ∨
              clamp_raw_pl (to_pdfplumber_bbox (clamp_raw_rl b pw ph) ph) pw ph ≠
                to_pdfplumber_bbox (clamp_raw_rl b pw ph) ph
           then BboxStatus.CLAMPED else BboxStatus.OK)) := by
  by_cases hd : drop_condition b pw ph
  · have hrl : clamp_bbox_rl b pw ph = none := by
      cases hc : clamp_bbox_rl b pw ph with
      | none => rfl
      | some c => exact absurd hd (clamp_bbox_rl_eq_some_iff.mp hc).2
    refine ⟨?_, fun h => absurd hd h⟩
    rw [convert_and_validate_bbox_eq_none hrl]
    simpa using hd
  · have hrl : clamp_bbox_rl b pw ph = some (clamp_raw_rl b pw ph) :=
      clamp_bbox_rl_eq_some_iff.mpr ⟨rfl, hd⟩
    obtain ⟨hraw, hsome⟩ := clamp_bbox_pl_of_rl hrl
    have heq := convert_and_validate_bbox_eq_some hrl hsome
    have hcond :
        (clamp_raw_rl b pw ph ≠ b ∨
          to_pdfplumber_bbox (clamp_raw_rl b pw ph) ph ≠
            to_pdfplumber_bbox (clamp_raw_rl b pw ph) ph) ↔
        (clamp_raw_rl b pw ph ≠ b ∨
          clamp_raw_pl (to_pdfplumber_bbox (clamp_raw_rl b pw ph) ph) pw ph ≠
            to_pdfplumber_bbox (clamp_raw_rl b pw ph) ph) := by
      rw [hraw]
    have hval : convert_and_validate_bbox b pw ph =
        (some (to_pdfplumber_bbox (clamp_raw_rl b pw ph) ph),
         if clamp_raw_rl b pw ph ≠ b ∨
            clamp_raw_pl (to_pdfplumber_bbox (clamp_raw_rl b pw ph) ph) pw ph ≠
              to_pdfplumber_bbox (clamp_raw_rl b pw ph) ph
         then BboxStatus.CLAMPED else BboxStatus.OK) := by
      rw [heq]
      exact congrArg _ (if_congr hcond rfl rfl)
    refine ⟨?_, fun _ => hval⟩
    rw [hval]
    constructor
    · intro hst
      dsimp only at hst
      split_ifs at hst
    · intro h
      exact absurd h hd

/-- Witness for C3 at the spec scenario: the box (-5, 10, 50, 40) on a
612×792 page is clamped (not dropped) and converts to (0, 752, 50, 782). -/
theorem c3_convert_and_validate_spec_witness :
    ¬ drop_condition ⟨-5, 10, 50, 40⟩ 612 792 ∧
    convert_and_validate_bbox ⟨-5, 10, 50, 40⟩ 612 792 =
      (some ⟨0, 752, 50, 782⟩, BboxStatus.CLAMPED) := by
  have hnd : ¬ drop_condition ⟨-5, 10, 50, 40⟩ 612 792 :=
    of_decide_eq_true (by with_unfolding_all rfl)
  have h := (c3_convert_and_validate_spec ⟨-5, 10, 50, 40⟩ 612 792).2 hnd
  refine ⟨hnd, ?_⟩
  rw [h]
  with_unfolding_all rfl

/-- C10: whenever clamp_bbox_rl or clamp_bbox_pl returns a box (for positive
page dimensions), the returned box lies inside the page, has width at least
10pt and height at least 5pt with strictly positive extent in both axes, and
re-applying the same clamp with the same page dimensions returns it
unchanged. -/
theorem c10_clamp_idempotent (pw ph : ℚ) (hpw : 0 < pw) (hph : 0 < ph) :
    (∀ b c : BboxRL, clamp_bbox_rl b pw ph = some c →
      (0 ≤ c.x0 ∧ c.x0 < c.x1 ∧ c.x1 ≤ pw ∧ 0 ≤ c.y0 ∧ c.y0 < c.y1 ∧ c.y1 ≤ ph ∧
       MIN_BBOX_WIDTH ≤ c.x1 - c.x0 ∧ MIN_BBOX_HEIGHT ≤ c.y1 - c.y0) ∧
      clamp_bbox_rl c pw ph = some c)
    ∧ (∀ b c : BboxPL, clamp_bbox_pl b pw ph = some c →
      (0 ≤ c.x0 ∧ c.x0 < c.x1 ∧ c.x1 ≤ pw ∧ 0 ≤ c.top ∧ c.top < c.bottom ∧ c.bottom ≤ ph ∧
       MIN_BBOX_WIDTH ≤ c.x1 - c.x0 ∧ MIN_BBOX_HEIGHT ≤ c.bottom - c.top) ∧
      clamp_bbox_pl c pw ph = some c) :=
  ⟨fun _ c h => ⟨clamp_bbox_rl_post h, clamp_bbox_rl_idem h⟩,
   fun _ c h => ⟨clamp_bbox_pl_post h, clamp_bbox_pl_idem h⟩⟩

/-- Witness for C10: a concrete clamp on a 612×792 page, re-applied. -/
theorem c10_clamp_idempotent_witness :
    clamp_bbox_rl ⟨-5, 10, 50, 40⟩ 612 792 = some ⟨0, 10, 50, 40⟩ ∧
    clamp_bbox_rl ⟨0, 10, 50, 40⟩ 612 792 = some ⟨0, 10, 50, 40⟩ := by
  have he : clamp_bbox_rl ⟨-5, 10, 50, 40⟩ 612 792 = some ⟨0, 10, 50, 40⟩ := by
    with_unfolding_all rfl
  have h := ((c10_clamp_idempotent 612 792 (by norm_num) (by norm_num)).1
    ⟨-5, 10, 50, 40⟩ ⟨0, 10, 50, 40⟩ he).2
  exact ⟨he, h⟩

lemma foldl_min_le_init (l : List ℚ) (a : ℚ) : l.foldl min a ≤ a := by
  induction l generalizing a with
  | nil => simp
  | cons x t ih => exact le_trans (ih (min a x)) (min_le_left a x)

lemma foldl_min_le_mem {l : List ℚ} {x : ℚ} (hx : x ∈ l) (a : ℚ) : l.foldl min a ≤ x := by
  induction l generalizing a with
  | nil => cases hx
  | cons y t ih =>
    rcases List.mem_cons.mp hx with h | h
    · subst h
      exact le_trans (foldl_min_le_init t (min a x)) (min_le_right a x)
    · exact ih h (min a y)

lemma le_foldl_min {l : List ℚ} {c : ℚ} {a : ℚ} (h1 : c ≤ a) (h2 : ∀ x ∈ l, c ≤ x) :
    c ≤ l.foldl min a := by
  induction l generalizing a with
  | nil => exact h1
  | cons y t ih =>
    exact ih (le_min h1 (h2 y (List.mem_cons_self y t))) fun x hx =>
      h2 x (List.mem_cons_of_mem y hx)

lemma init_le_foldl_max (l : List ℚ) (a : ℚ) : a ≤ l.foldl max a := by
  induction l generalizing a with
  | nil => simp
  | cons x t ih => exact le_trans (le_max_left a x) (ih (max a x))

lemma mem_le_foldl_max {l : List ℚ} {x : ℚ} (hx : x ∈ l) (a : ℚ) : x ≤ l.foldl max a := by
  induction l generalizing a with
  | nil => cases hx
  | cons y t ih =>
    rcases List.mem_cons.mp hx with h | h
    · subst h
      exact le_trans (le_max_right a x) (init_le_foldl_max t (max a x))
    · exact ih h (max a y)

lemma foldl_max_le {l : List ℚ} {c : ℚ} {a : ℚ} (h1 : a ≤ c) (h2 : ∀ x ∈ l, x ≤ c) :
    l.foldl max a ≤ c := by
  induction l generalizing a with
  | nil => exact h1
  | cons y t ih =>
    exact ih (max_le h1 (h2 y (List.mem_cons_self y t))) fun x hx =>
      h2 x (List.mem_cons_of_mem y hx)

lemma convert_and_validate_bbox_eq_none_of_pl {b c : BboxRL} {pw ph : ℚ}
    (h1 : clamp_bbox_rl b pw ph = some c)
    (h2 : clamp_bbox_pl (to_pdfplumber_bbox c ph) pw ph = none) :
    convert_and_validate_bbox b pw ph = (none, BboxStatus.DROPPED) := by
  unfold convert_and_validate_bbox
  rw [h1]
  dsimp only
  rw [h2]

lemma convert_fst_eq_some {b : BboxRL} {p : BboxPL} {pw ph : ℚ}
    (h : (convert_and_validate_bbox b pw ph).1 = some p) :
    ∃ c, clamp_bbox_rl b pw ph = some c ∧
      clamp_bbox_pl (to_pdfplumber_bbox c ph) pw ph = some p := by
  cases hc : clamp_bbox_rl b pw ph with
  | none =>
    rw [convert_and_validate_bbox_eq_none hc] at h
    exact absurd h (by simp)
  | some c =>
    cases hp : clamp_bbox_pl (to_pdfplumber_bbox c ph) pw ph with
    | none =>
      rw [convert_and_validate_bbox_eq_none_of_pl hc hp] at h
      exact absurd h (by simp)
    | some q =>
      rw [convert_and_validate_bbox_eq_some hc hp] at h
      dsimp only at h
      have hqp : q = p := Option.some.inj h
      exact ⟨c, rfl, hqp ▸ hp⟩

lemma convert_fst_some_valid {b : BboxRL} {p : BboxPL} {pw ph : ℚ}
    (h : (convert_and_validate_bbox b pw ph).1 = some p) :
    valid_label_bbox p pw ph := by
  obtain ⟨c, -, hp⟩ := convert_fst_eq_some h
  obtain ⟨h1, h2, h3, h4, h5, h6, -, -⟩ := clamp_bbox_pl_post hp
  exact ⟨h1, h2, h3, h4, h5, h6⟩

lemma mem_row_converted_cells_valid {pw ph : ℚ} {row : RenderedRow} {p : BboxPL}
    (h : p ∈ row_converted_cells pw ph row) : valid_label_bbox p pw ph := by
  rw [row_converted_cells, List.mem_filterMap] at h
  obtain ⟨cell, -, hf⟩ := h
  by_cases ht : cell.text = ""
  · rw [if_pos ht] at hf
    exact absurd hf (by simp)
  · rw [if_neg ht] at hf
    by_cases hd : (convert_and_validate_bbox cell.bbox pw ph).2 = BboxStatus.DROPPED
    · rw [if_pos hd] at hf
      exact absurd hf (by simp)
    · rw [if_neg hd] at hf
      exact convert_fst_some_valid hf

lemma process_row_eq_of_dropped {iscv : Bool} {pw ph : ℚ} {row : RenderedRow}
    (h : (convert_and_validate_bbox row.bbox pw ph).2 = BboxStatus.DROPPED) :
    process_row iscv pw ph row = ⟨none, [], [], []⟩ := by
  unfold process_row
  rw [if_pos h]

lemma process_row_eq_of_not_dropped {iscv : Bool} {pw ph : ℚ} {row : RenderedRow}
    (h : ¬ (convert_and_validate_bbox row.bbox pw ph).2 = BboxStatus.DROPPED) :
    process_row iscv pw ph row =
      ⟨if iscv then (convert_and_validate_bbox row.bbox pw ph).1 else none,
       if iscv then row_converted_cells pw ph row else [],
       row_converted_cells pw ph row,
       if row.row_type = RowType.TEMPLATE then [] else row_converted_cells pw ph row⟩ := by
  unfold process_row
  rw [if_neg h]

lemma process_row_row_label_valid {iscv : Bool} {pw ph : ℚ} {row : RenderedRow} {p : BboxPL}
    (h : (process_row iscv pw ph row).row_label = some p) : valid_label_bbox p pw ph := by
  by_cases hd : (convert_and_validate_bbox row.bbox pw ph).2 = BboxStatus.DROPPED
  · rw [process_row_eq_of_dropped hd] at h
    exact absurd h (by simp)
  · rw [process_row_eq_of_not_dropped hd] at h
    dsimp only at h
    by_cases hc : iscv = true
    · rw [if_pos hc] at h
      exact convert_fst_some_valid h
    · rw [if_neg hc] at h
      exact absurd h (by simp)

lemma process_row_mem_valid {iscv : Bool} {pw ph : ℚ} {row : RenderedRow} {p : BboxPL}
    (h : p ∈ (process_row iscv pw ph row).token_labels ∨
         p ∈ (process_row iscv pw ph row).cell_labels ∨
         p ∈ (process_row iscv pw ph row).table_cells) :
    valid_label_bbox p pw ph := by
  by_cases hd : (convert_and_validate_bbox row.bbox pw ph).2 = BboxStatus.DROPPED
  · rw [process_row_eq_of_dropped hd] at h
    rcases h with h | h | h <;> exact absurd h (by simp)
  · rw [process_row_eq_of_not_dropped hd] at h
    dsimp only at h
    rcases h with h | h | h
    · split_ifs at h
      · exact mem_row_converted_cells_valid h
      · exact absurd h (by simp)
    · exact mem_row_converted_cells_valid h
    · split_ifs at h
      · exact absurd h (by simp)
      · exact mem_row_converted_cells_valid h

lemma mem_table_valid_cell_bboxes_valid {pw ph : ℚ} {t : RenderedTable} {p : BboxPL}
    (h : p ∈ table_valid_cell_bboxes pw ph t) : valid_label_bbox p pw ph := by
  rw [table_valid_cell_bboxes, List.mem_flatten] at h
  obtain ⟨s, hs, hps⟩ := h
  rw [List.mem_map] at hs
  obtain ⟨o, ho, rfl⟩ := hs
  rw [List.mem_map] at ho
  obtain ⟨row, -, rfl⟩ := ho
  exact process_row_mem_valid (Or.inr (Or.inr hps))

lemma compute_table_bbox_valid {cells : List BboxPL} {pw ph : ℚ} {u : BboxPL}
    (h : compute_table_bbox_from_cells cells pw ph = some u) : valid_label_bbox u pw ph := by
  cases cells with
  | nil => exact absurd h (by simp [compute_table_bbox_from_cells])
  | cons c rest =>
    unfold compute_table_bbox_from_cells at h
    dsimp only at h
    split_ifs at h with hcond
    push_neg at hcond
    obtain ⟨h1, h2⟩ := hcond
    have hu := Option.some.inj h
    subst hu
    exact ⟨clamp_coord_nonneg _ _, h1, clamp_coord_le _ (bound_nonneg_of_clamp_lt h1),
           clamp_coord_nonneg _ _, h2, clamp_coord_le _ (bound_nonneg_of_clamp_lt h2)⟩

/-- C1: every bbox field written to the label JSONL files by write_labels
(table, row, token, cell and non-table-region records), measured against the
page_width and page_height supplied to write_labels, satisfies x1 > x0 and
bottom > top, with x0 ≥ 0, top ≥ 0, x1 ≤ page_width and bottom ≤ page_height:
no degenerate or off-page box is ever emitted as a valid label bbox. -/
theorem c1_label_bbox_validity (tables : List RenderedTable)
    (regions : List NonTableRegion) (pw ph : ℚ) (b : BboxPL)
    (hb : b ∈ write_labels_bboxes tables regions pw ph) : valid_label_bbox b pw ph := by
  rw [write_labels_bboxes, List.mem_append] at hb
  rcases hb with hb | hb
  · rw [List.mem_flatten] at hb
    obtain ⟨s, hs, hbs⟩ := hb
    rw [List.mem_map] at hs
    obtain ⟨t, -, rfl⟩ := hs
    rw [List.mem_append] at hbs
    rcases hbs with hbs | hcell
    · rw [List.mem_append] at hbs
      rcases hbs with hbs | htok
      · rw [List.mem_append] at hbs
        rcases hbs with htab | hrow
        · cases hL : (process_table pw ph t).table_label with
          | none => rw [hL] at htab; exact absurd htab (by simp)
          | some u =>
            rw [hL] at htab
            simp only [Option.toList_some, List.mem_singleton] at htab
            subst htab
            exact compute_table_bbox_valid hL
        · rw [process_table, List.mem_filterMap] at hrow
          obtain ⟨o, ho, hob⟩ := hrow
          rw [List.mem_map] at ho
          obtain ⟨row, -, rfl⟩ := ho
          exact process_row_row_label_valid hob
      · rw [process_table] at htok
        dsimp only at htok
        rw [List.mem_flatten] at htok
        obtain ⟨s, hs, hps⟩ := htok
        rw [List.mem_map] at hs
        obtain ⟨o, ho, rfl⟩ := hs
        rw [List.mem_map] at ho
        obtain ⟨row, -, rfl⟩ := ho
        exact process_row_mem_valid (Or.inl hps)
    · rw [process_table] at hcell
      dsimp only at hcell
      rw [List.mem_flatten] at hcell
      obtain ⟨s, hs, hps⟩ := hcell
      rw [List.mem_map] at hs
      obtain ⟨o, ho, rfl⟩ := hs
      rw [List.mem_map] at ho
      obtain ⟨row, -, rfl⟩ := ho
      exact process_row_mem_valid (Or.inr (Or.inl hps))
  · rw [List.mem_filterMap] at hb
    obtain ⟨r, -, hr⟩ := hb
    exact convert_fst_some_valid hr

set_option maxRecDepth 10000 in
/-- Witness for C1: the model2 row bbox emitted for the concrete one-row cash
table on a 612×792 page is valid. -/
theorem c1_label_bbox_validity_witness : valid_label_bbox ⟨36, 672, 576, 692⟩ 612 792 :=
  c1_label_bbox_validity [cx_table_c1] [] 612 792 ⟨36, 672, 576, 692⟩
    (of_decide_eq_true (by with_unfolding_all rfl))

lemma clamp_pair_id {lo hi bound : ℚ} (h0 : 0 ≤ lo) (hlt : lo < hi) (hb : hi ≤ bound) :
    clamp_coord lo bound = lo ∧ clamp_coord hi bound = hi :=
  ⟨clamp_coord_eq_self h0 (le_trans (le_of_lt hlt) hb),
   clamp_coord_eq_self (le_trans h0 (le_of_lt hlt)) hb⟩

/-- On a list of page-valid boxes the clamp inside
compute_table_bbox_from_cells is the identity and the collapse check cannot
fire, so the computed table bbox is exactly the raw elementwise union. -/
lemma compute_eq_union_raw {cells : List BboxPL} {pw ph : ℚ}
    (hv : ∀ p ∈ cells, valid_label_bbox p pw ph) :
    compute_table_bbox_from_cells cells pw ph = bbox_union_raw cells := by
  cases cells with
  | nil => rfl
  | cons c rest =>
    have hc := hv c (List.mem_cons_self c rest)
    have hx0_mem : ∀ x ∈ rest.map (fun b => b.x0), 0 ≤ x := by
      intro x hx
      obtain ⟨p, hp, rfl⟩ := List.mem_map.mp hx
      exact (hv p (List.mem_cons_of_mem c hp)).1
    have hx1_mem : ∀ x ∈ rest.map (fun b => b.x1), x ≤ pw := by
      intro x hx
      obtain ⟨p, hp, rfl⟩ := List.mem_map.mp hx
      exact (hv p (List.mem_cons_of_mem c hp)).2.2.1
    have htop_mem : ∀ x ∈ rest.map (fun b => b.top), 0 ≤ x := by
      intro x hx
      obtain ⟨p, hp, rfl⟩ := List.mem_map.mp hx
      exact (hv p (List.mem_cons_of_mem c hp)).2.2.2.1
    have hbot_mem : ∀ x ∈ rest.map (fun b => b.bottom), x ≤ ph := by
      intro x hx
      obtain ⟨p, hp, rfl⟩ := List.mem_map.mp hx
      exact (hv p (List.mem_cons_of_mem c hp)).2.2.2.2.2
    have hx0 : 0 ≤ (rest.map (fun b => b.x0)).foldl min c.x0 :=
      le_foldl_min hc.1 hx0_mem
    have hx1 : (rest.map (fun b => b.x1)).foldl max c.x1 ≤ pw :=
      foldl_max_le hc.2.2.1 hx1_mem
    have hxx : (rest.map (fun b => b.x0)).foldl min c.x0 <
        (rest.map (fun b => b.x1)).foldl max c.x1 :=
      lt_of_le_of_lt (foldl_min_le_init _ _)
        (lt_of_lt_of_le hc.2.1 (init_le_foldl_max _ _))
    have ht0 : 0 ≤ (rest.map (fun b => b.top)).foldl min c.top :=
      le_foldl_min hc.2.2.2.1 htop_mem
    have hb1 : (rest.map (fun b => b.bottom)).foldl max c.bottom ≤ ph :=
      foldl_max_le hc.2.2.2.2.2 hbot_mem
    have htb : (rest.map (fun b => b.top)).foldl min c.top <
        (rest.map (fun b => b.bottom)).foldl max c.bottom :=
      lt_of_le_of_lt (foldl_min_le_init _ _)
        (lt_of_lt_of_le hc.2.2.2.2.1 (init_le_foldl_max _ _))
    obtain ⟨ex0, ex1⟩ := clamp_pair_id hx0 hxx hx1
    obtain ⟨et, eb⟩ := clamp_pair_id ht0 htb hb1
    unfold compute_table_bbox_from_cells bbox_union_raw
    dsimp only
    rw [ex0, ex1, et, eb, if_neg (by push_neg; exact ⟨hxx, htb⟩)]

/-- Every box of the list lies inside the raw elementwise union. -/
lemma bbox_union_raw_contains {cells : List BboxPL} {u p : BboxPL}
    (h : bbox_union_raw cells = some u) (hp : p ∈ cells) :
    u.x0 ≤ p.x0 ∧ u.top ≤ p.top ∧ p.x1 ≤ u.x1 ∧ p.bottom ≤ u.bottom := by
  cases cells with
  | nil => cases hp
  | cons c rest =>
    simp only [bbox_union_raw] at h
    have hu := Option.some.inj h
    subst hu
    dsimp only
    rcases List.mem_cons.mp hp with h | h
    · subst h
      exact ⟨foldl_min_le_init _ _, foldl_min_le_init _ _,
             init_le_foldl_max _ _, init_le_foldl_max _ _⟩
    · refine ⟨foldl_min_le_mem ?_ _, foldl_min_le_mem ?_ _,
              mem_le_foldl_max ?_ _, mem_le_foldl_max ?_ _⟩ <;>
        exact List.mem_map.mpr ⟨p, h, rfl⟩

/-- C2 (amended): the emitted table bbox equals the raw elementwise union of
the cell boxes write_labels actually collects — the converted, validated,
non-empty-text cells of non-TEMPLATE rows belonging to rows whose own bbox
was not DROPPED; every collected cell box lies inside the emitted table bbox,
and a table with no collected cell boxes gets no table-level record. -/
theorem c2_table_bbox_union (pw ph : ℚ) (t : RenderedTable) :
    (process_table pw ph t).table_label = bbox_union_raw (table_valid_cell_bboxes pw ph t)
    ∧ (∀ u, (process_table pw ph t).table_label = some u →
        ∀ p ∈ table_valid_cell_bboxes pw ph t,
          u.x0 ≤ p.x0 ∧ u.top ≤ p.top ∧ p.x1 ≤ u.x1 ∧ p.bottom ≤ u.bottom)
    ∧ (table_valid_cell_bboxes pw ph t = [] → (process_table pw ph t).table_label = none) := by
  have hmain : (process_table pw ph t).table_label =
      bbox_union_raw (table_valid_cell_bboxes pw ph t) :=
    compute_eq_union_raw fun p hp => mem_table_valid_cell_bboxes_valid hp
  refine ⟨hmain, ?_, ?_⟩
  · intro u hu p hp
    exact bbox_union_raw_contains (hmain.symm.trans hu) hp
  · intro hnil
    rw [hmain, hnil]
    rfl

set_option maxRecDepth 10000 in
/-- Counterexample to C2 as stated: in cx_table_c2 the second row's bbox is
DROPPED, so its perfectly valid cell (200, 702, 300, 742) is never converted
by write_labels; the emitted table bbox is the first row's cell alone, not
the union over all non-empty non-TEMPLATE validated cells, and that excluded
cell lies outside the emitted table bbox. -/
theorem c2_counterexample :
    (process_table 612 792 cx_table_c2).table_label = some ⟨36, 672, 136, 692⟩ ∧
    spec_contributing_cells 612 792 cx_table_c2 =
      [⟨36, 672, 136, 692⟩, ⟨200, 702, 300, 742⟩] ∧
    bbox_union_raw (spec_contributing_cells 612 792 cx_table_c2) =
      some ⟨36, 672, 300, 742⟩ ∧
    (⟨36, 672, 136, 692⟩ : BboxPL) ≠ ⟨36, 672, 300, 742⟩ ∧
    ¬ ((⟨200, 702, 300, 742⟩ : BboxPL).x1 ≤ (⟨36, 672, 136, 692⟩ : BboxPL).x1) := by
  refine ⟨?_, ?_, ?_, ?_, ?_⟩ <;> exact of_decide_eq_true (by with_unfolding_all rfl)

/-- C4 (amended): when a row's own bbox is DROPPED, write_labels skips the
entire row — no row record, no token records, no cells.jsonl records and no
contribution to the table union, regardless of how valid the row's cell
bboxes are; when the row's bbox survives, the row's cells are processed by
cell-level validation alone (the TEMPLATE exclusion applying only to the
table union), independently of row-level emission eligibility. -/
theorem c4_row_drop_skips_cells (iscv : Bool) (pw ph : ℚ) (row : RenderedRow) :
    ((convert_and_validate_bbox row.bbox pw ph).2 = BboxStatus.DROPPED →
      process_row iscv pw ph row = ⟨none, [], [], []⟩)
    ∧ ((convert_and_validate_bbox row.bbox pw ph).2 ≠ BboxStatus.DROPPED →
      (process_row iscv pw ph row).cell_labels = row_converted_cells pw ph row ∧
      (process_row iscv pw ph row).table_cells =
        (if row.row_type = RowType.TEMPLATE then [] else row_converted_cells pw ph row)) := by
  constructor
  · intro h
    exact process_row_eq_of_dropped h
  · intro h
    rw [process_row_eq_of_not_dropped h]
    exact ⟨rfl, rfl⟩

set_option maxRecDepth 10000 in
/-- Counterexample to C4 as stated: cx_rowB's bbox is DROPPED while its cell
bbox (200, 50, 300, 90) independently passes validation, yet write_labels
emits no cell record for it and drops the whole table from ground truth:
a dropped row does short-circuit cell-level processing. -/
theorem c4_counterexample :
    (convert_and_validate_bbox (⟨200, 50, 300, 90⟩ : BboxRL) 612 792).2 ≠
      BboxStatus.DROPPED ∧
    (convert_and_validate_bbox (⟨200, 50, 300, 90⟩ : BboxRL) 612 792).1 =
      some ⟨200, 702, 300, 742⟩ ∧
    (convert_and_validate_bbox cx_rowB.bbox 612 792).2 = BboxStatus.DROPPED ∧
    process_row true 612 792 cx_rowB = ⟨none, [], [], []⟩ ∧
    (process_table 612 792 cx_table_c4).cell_labels = [] ∧
    (process_table 612 792 cx_table_c4).table_label = none := by
  refine ⟨?_, ?_, ?_, ?_, ?_, ?_⟩ <;> exact of_decide_eq_true (by with_unfolding_all rfl)

lemma validate_template_ok_of_sum_one {t : TableTemplate}
    (h : (t.column_specs.map (fun s => s.width_ratio)).sum = 1) :
    validate_template t = Except.ok true := by
  unfold validate_template
  rw [h]
  norm_num

/-- C7 (amended): validate_template rejects exactly the templates whose
column ratios sum outside [0.98, 1.02], and every template obtainable from
the template constructors (get_template over every table type and every
vendor string) has ratios summing to exactly 1 and passes validation — but
TableTemplate construction itself never validates and never raises (see the
counterexample). -/
theorem c7_template_ratio_invariant :
    (∀ t : TableTemplate,
      validate_template t = Except.ok true ↔
        (0.98 ≤ (t.column_specs.map (fun s => s.width_ratio)).sum ∧
         (t.column_specs.map (fun s => s.width_ratio)).sum ≤ 1.02))
    ∧ (∀ (tt : TableType) (vendor : String),
        ((get_template tt vendor).column_specs.map (fun s => s.width_ratio)).sum = 1 ∧
        validate_template (get_template tt vendor) = Except.ok true) := by
  constructor
  · intro t
    unfold validate_template
    split_ifs with h
    · simpa using h
    · simp only [reduceCtorEq, false_iff]
      exact h
  · intro tt vendor
    cases tt <;>
      simp only [get_template, get_cash_out_template, get_cash_in_template,
        get_budget_template, get_unpaid_template, get_aging_template, get_gl_template] <;>
      (try split_ifs) <;>
      refine ⟨by norm_num [List.map_cons, List.map_nil, List.sum_cons, List.sum_nil],
        validate_template_ok_of_sum_one
          (by norm_num [List.map_cons, List.map_nil, List.sum_cons, List.sum_nil])⟩

/-- Counterexample to C7 as stated: the dataclass initializer constructs a
template whose single column ratio sums to 2 — far outside [0.98, 1.02] —
without raising any error (construction is never validated); only an explicit
validate_template call, which nothing in the repository makes, rejects it. -/
theorem c7_counterexample :
    TableTemplate.dataclass_init "X" TableType.OTHER []
        [⟨"only", SemanticType.OTHER, 2, "left"⟩] true (10, 50) true "Helvetica" 9 10 14 =
      Except.ok cx_bad_template ∧
    ((cx_bad_template.column_specs.map (fun s => s.width_ratio)).sum = 2) ∧
    ¬ (0.98 ≤ (2 : ℚ) ∧ (2 : ℚ) ≤ 1.02) ∧
    validate_template cx_bad_template = Except.error ("Column widths sum out of expected range") := by
  have hsum : (cx_bad_template.column_specs.map (fun s => s.width_ratio)).sum = 2 := by
    norm_num [cx_bad_template, List.map_cons, List.map_nil, List.sum_cons, List.sum_nil]
  refine ⟨rfl, hsum, by norm_num, ?_⟩
  unfold validate_template
  rw [hsum, if_pos (by norm_num)]

/-- The left panel of a split pair neither advances the cursor nor leaves the
page its placement reports: the resulting state sits exactly at the
placement's page and start height. -/
lemma place_table_split_left_state (layout : PageLayout) (s : LayoutState)
    (tmpl : TableTemplate) (n i : ℕ) :
    (place_table layout s tmpl n i LayoutType.SPLIT_LEDGER false).2.current_page =
      (place_table layout s tmpl n i LayoutType.SPLIT_LEDGER false).1.page_index ∧
    (place_table layout s tmpl n i LayoutType.SPLIT_LEDGER false).2.current_y =
      (place_table layout s tmpl n i LayoutType.SPLIT_LEDGER false).1.start_y := by
  unfold place_table
  dsimp only
  rw [if_neg (by simp : ¬ (LayoutType.SPLIT_LEDGER ≠ LayoutType.SPLIT_LEDGER ∨
    false = true))]
  split_ifs <;> exact ⟨rfl, rfl⟩

/-- The right panel of a split pair never evaluates the page break: its
placement reports the incoming page and cursor position unchanged, and the
cursor advance happens only after it, by the panel's height plus the 20pt
inter-table gap. -/
lemma place_table_split_right_state (layout : PageLayout) (s : LayoutState)
    (tmpl : TableTemplate) (n i : ℕ) :
    (place_table layout s tmpl n i LayoutType.SPLIT_LEDGER true).1.page_index =
      s.current_page ∧
    (place_table layout s tmpl n i LayoutType.SPLIT_LEDGER true).1.start_y =
      s.current_y ∧
    (place_table layout s tmpl n i LayoutType.SPLIT_LEDGER true).2.current_page =
      s.current_page ∧
    (place_table layout s tmpl n i LayoutType.SPLIT_LEDGER true).2.current_y =
      s.current_y -
        ((place_table layout s tmpl n i LayoutType.SPLIT_LEDGER true).1.height + 20) := by
  unfold place_table
  dsimp only
  rw [if_neg (by simp : ¬ (true = false ∧
        can_fit_on_current_page layout s (compute_table_height tmpl n true true) = false)),
      if_pos (Or.inr rfl : LayoutType.SPLIT_LEDGER ≠ LayoutType.SPLIT_LEDGER ∨ true = true)]
  exact ⟨rfl, rfl, rfl, rfl⟩

/-- C5: for a consecutively placed split pair (left panel with
is_split_right = false, then right panel with is_split_right = true, both
SPLIT_LEDGER), the right panel's placement triggers no page break — it keeps
the page and cursor the left panel left behind — both placements report the
same page_index, the left panel does not advance the cursor, and the cursor
drops by the table height plus the 20pt inter-table gap only after the right
panel is placed. -/
theorem c5_split_pair_atomic (layout : PageLayout) (s : LayoutState)
    (tL tR : TableTemplate) (nL nR iL iR : ℕ) :
    (place_table layout (place_table layout s tL nL iL LayoutType.SPLIT_LEDGER false).2
        tR nR iR LayoutType.SPLIT_LEDGER true).1.page_index =
      (place_table layout s tL nL iL LayoutType.SPLIT_LEDGER false).1.page_index
    ∧ (place_table layout s tL nL iL LayoutType.SPLIT_LEDGER false).2.current_y =
        (place_table layout s tL nL iL LayoutType.SPLIT_LEDGER false).1.start_y
    ∧ (place_table layout (place_table layout s tL nL iL LayoutType.SPLIT_LEDGER false).2
        tR nR iR LayoutType.SPLIT_LEDGER true).2.current_page =
      (place_table layout s tL nL iL LayoutType.SPLIT_LEDGER false).1.page_index
    ∧ (place_table layout (place_table layout s tL nL iL LayoutType.SPLIT_LEDGER false).2
        tR nR iR LayoutType.SPLIT_LEDGER true).1.start_y =
      (place_table layout s tL nL iL LayoutType.SPLIT_LEDGER false).2.current_y
    ∧ (place_table layout (place_table layout s tL nL iL LayoutType.SPLIT_LEDGER false).2
        tR nR iR LayoutType.SPLIT_LEDGER true).2.current_y =
      (place_table layout s tL nL iL LayoutType.SPLIT_LEDGER false).2.current_y -
        ((place_table layout (place_table layout s tL nL iL LayoutType.SPLIT_LEDGER false).2
          tR nR iR LayoutType.SPLIT_LEDGER true).1.height + 20) := by
  obtain ⟨hLp, hLy⟩ := place_table_split_left_state layout s tL nL iL
  obtain ⟨hRp, hRy, hRsp, hRsy⟩ := place_table_split_right_state layout
    (place_table layout s tL nL iL LayoutType.SPLIT_LEDGER false).2 tR nR iR
  exact ⟨hRp.trans hLp, hLy, hRsp.trans hLp, hRy, hRsy⟩

lemma template_draw_count_true (steps : List Bool) : template_draw_count true steps = 0 := by
  induction steps with
  | nil => rfl
  | cons h t ih =>
    simp [template_draw_count, should_draw_template, page_template_drawn_after, ih]

lemma template_draw_count_le_one (steps : List Bool) :
    ∀ flag, template_draw_count flag steps ≤ 1 := by
  induction steps with
  | nil => intro flag; exact Nat.zero_le 1
  | cons h t ih =>
    intro flag
    cases flag with
    | true =>
      rw [template_draw_count_true]
      exact Nat.zero_le 1
    | false =>
      cases h with
      | true =>
        simp [template_draw_count, should_draw_template, page_template_drawn_after,
          template_draw_count_true]
      | false =>
        simpa [template_draw_count, should_draw_template, page_template_drawn_after]
          using ih false

/-- C6: when a template header is drawn for the first table of a page, the
computed template-header height is positive, and the adjustment subtracts
that single offset — before any primitive is drawn — from every
already-computed row y_top and y_bottom, every cell y_top and y_bottom and
the placement's start_y, leaving row indices, row heights, x positions,
widths and texts unchanged and preserving all relative vertical distances;
and the draw is guarded by the per-page flag (reset on every page turn) so it
happens at most once per page. -/
theorem c6_template_header_offset (lines : List String) (gs : GridStyle) (offset : ℚ)
    (rows : List RowPlacement) (cells : List CellPlacement) (start_y : ℚ)
    (rp rq : RowPlacement) (cp cq : CellPlacement) (steps : List Bool) :
    (lines ≠ [] → 0 < get_template_header_height lines gs)
    ∧ (0 < offset →
        apply_template_header_offset offset rows cells start_y =
          (rows.map (shift_row_placement offset), cells.map (shift_cell_placement offset),
           start_y - offset))
    ∧ (shift_row_placement offset rp).y_top = rp.y_top - offset
    ∧ (shift_row_placement offset rp).y_bottom = rp.y_bottom - offset
    ∧ (shift_row_placement offset rp).row_height = rp.row_height
    ∧ (shift_row_placement offset rp).row_index = rp.row_index
    ∧ (shift_row_placement offset rp).y_top - (shift_row_placement offset rp).y_bottom =
        rp.y_top - rp.y_bottom
    ∧ (shift_cell_placement offset cp).x = cp.x
    ∧ (shift_cell_placement offset cp).width = cp.width
    ∧ (shift_cell_placement offset cp).text = cp.text
    ∧ (shift_cell_placement offset cp).y_top = cp.y_top - offset
    ∧ (shift_cell_placement offset cp).y_bottom = cp.y_bottom - offset
    ∧ (shift_row_placement offset rp).y_top - (shift_row_placement offset rq).y_top =
        rp.y_top - rq.y_top
    ∧ (shift_cell_placement offset cp).y_top - (shift_cell_placement offset cq).y_top =
        cp.y_top - cq.y_top
    ∧ template_draw_count false steps ≤ 1 := by
  refine ⟨?_, ?_, rfl, rfl, rfl, rfl, by dsimp only [shift_row_placement]; ring,
    rfl, rfl, rfl, rfl, rfl, by dsimp only [shift_row_placement]; ring,
    by dsimp only [shift_cell_placement]; ring,
    template_draw_count_le_one steps false⟩
  · intro hne
    unfold get_template_header_height
    rw [if_neg hne]
    split_ifs
    · positivity
    · positivity
  · intro hpos
    unfold apply_template_header_offset
    rw [if_pos hpos]

set_option maxRecDepth 10000 in
/-- Witness for C6 at concrete inputs: a one-line header on a standard grid
reserves 35pt, the offset block shifts a concrete row down by 35, and three
consecutive tables on one page draw the template header exactly at most once. -/
theorem c6_template_header_offset_witness :
    (0 : ℚ) < get_template_header_height ["Company"] GridStyle.FULL_GRID
    ∧ (shift_row_placement 35 ⟨1, 700, 686, 14⟩).y_top = 700 - 35
    ∧ template_draw_count false [true, true, true] ≤ 1 := by
  have h := c6_template_header_offset ["Company"] GridStyle.FULL_GRID 35 [] [] 0
    ⟨1, 700, 686, 14⟩ ⟨1, 700, 686, 14⟩ ⟨0, 0, 0, 0, 0, 0, ""⟩ ⟨0, 0, 0, 0, 0, 0, ""⟩
    [true, true, true]
  exact ⟨h.1 (by simp), h.2.2.1, h.2.2.2.2.2.2.2.2.2.2.2.2.2.2⟩

lemma prepare_data_records_eq_take {α : Type} (layout : PageLayout)
    (template : TableTemplate) (data : List α) :
    prepare_data_records layout template data =
      data.take (calculate_max_data_rows layout template).toNat := by
  cases data with
  | nil => simp [prepare_data_records]
  | cons a l => rfl

/-- Arithmetic core of C8: whenever ten data rows fit under the reserved
chrome (true for every real template and page), the clamped row maximum times
the row height still fits in the space left over after the reservations. -/
lemma calc_rows_mul_le {rh CH : ℚ} (hrh : 0 < rh)
    (h10 : 120 + (39 / 10) * rh + 10 * rh ≤ CH) :
    ((max 10 (min (pyint ((CH - 85 - (rh * 1.5 + 10) - rh * 1.2 * 2 - 25) / rh)) 45) :
      ℤ) : ℚ) * rh ≤ CH - 85 - (rh * 1.5 + 10) - rh * 1.2 * 2 - 25 := by
  have hA : CH - 85 - (rh * 1.5 + 10) - rh * 1.2 * 2 - 25 = CH - 120 - (39 / 10) * rh := by
    ring
  rw [hA]
  have h10' : 10 * rh ≤ CH - 120 - (39 / 10) * rh := by linarith
  have hdiv10 : (10 : ℚ) ≤ (CH - 120 - (39 / 10) * rh) / rh :=
    (le_div_iff hrh).mpr (by linarith)
  have hpy : pyint ((CH - 120 - (39 / 10) * rh) / rh) =
      Int.floor ((CH - 120 - (39 / 10) * rh) / rh) := by
    unfold pyint
    rw [if_pos (le_trans (by norm_num) hdiv10)]
  have hfl : (10 : ℤ) ≤ Int.floor ((CH - 120 - (39 / 10) * rh) / rh) :=
    Int.le_floor.mpr (by exact_mod_cast hdiv10)
  rw [hpy, max_eq_right (le_min hfl (by norm_num))]
  have hle : ((min (Int.floor ((CH - 120 - (39 / 10) * rh) / rh)) 45 : ℤ) : ℚ) ≤
      (CH - 120 - (39 / 10) * rh) / rh := by
    calc ((min (Int.floor ((CH - 120 - (39 / 10) * rh) / rh)) 45 : ℤ) : ℚ)
        ≤ ((Int.floor ((CH - 120 - (39 / 10) * rh) / rh) : ℤ) : ℚ) := by
          exact_mod_cast min_le_left _ _
      _ ≤ (CH - 120 - (39 / 10) * rh) / rh := Int.floor_le _
  calc ((min (Int.floor ((CH - 120 - (39 / 10) * rh) / rh)) 45 : ℤ) : ℚ) * rh
      ≤ ((CH - 120 - (39 / 10) * rh) / rh) * rh :=
        mul_le_mul_of_nonneg_right hle (le_of_lt hrh)
    _ = CH - 120 - (39 / 10) * rh := div_mul_cancel₀ _ (ne_of_gt hrh)

/-- The retained records of _prepare_data_rows fit under the page's reserved
heights. -/
lemma prepare_data_records_fit {α : Type} {layout : PageLayout}
    {template : TableTemplate} (hrh : 0 < template.row_height)
    (h10 : 120 + (39 / 10) * template.row_height + 10 * template.row_height ≤
      layout.content_height) (data : List α) :
    85 + (template.row_height * 1.5 + 10) + template.row_height * 1.2 * 2 + 25 +
      ((prepare_data_records layout template data).length : ℚ) * template.row_height ≤
    layout.content_height := by
  have hn : (0 : ℤ) ≤ calculate_max_data_rows layout template :=
    le_trans (by norm_num) (le_max_left 10 _)
  have hlen : (prepare_data_records layout template data).length ≤
      (calculate_max_data_rows layout template).toNat := by
    rw [prepare_data_records_eq_take]
    exact List.length_take_le _ _
  have hcast : (((calculate_max_data_rows layout template).toNat : ℕ) : ℚ) =
      ((calculate_max_data_rows layout template : ℤ) : ℚ) := by
    exact_mod_cast congrArg (fun z : ℤ => (z : ℚ)) (Int.toNat_of_nonneg hn)
  have hmul : ((prepare_data_records layout template data).length : ℚ) *
      template.row_height ≤
      ((calculate_max_data_rows layout template : ℤ) : ℚ) * template.row_height := by
    refine mul_le_mul_of_nonneg_right ?_ (le_of_lt hrh)
    rw [← hcast]
    exact_mod_cast hlen
  have hend := calc_rows_mul_le hrh h10
  have hcalc : calculate_max_data_rows layout template =
      max 10 (min (pyint ((layout.content_height - 85 - (template.row_height * 1.5 + 10) -
        template.row_height * 1.2 * 2 - 25) / template.row_height)) 45) := rfl
  rw [hcalc] at hmul
  linarith

/-- C8: for every table render (every template obtainable from get_template,
on a portrait or landscape page), the records used are exactly the first
max_rows elements of the input — a prefix, with the overflow silently
discarded rather than paginated or reported — and the retained rows together
with the reserved title, chrome and header heights fit within one page's
content height. -/
theorem c8_overflow_truncation {α : Type} (tt : TableType) (vendor : String)
    (layout : PageLayout) (data : List α)
    (hlay : layout = PageLayout.portrait ∨ layout = PageLayout.landscape) :
    prepare_data_records layout (get_template tt vendor) data =
      data.take (calculate_max_data_rows layout (get_template tt vendor)).toNat
    ∧ (∃ rest, prepare_data_records layout (get_template tt vendor) data ++ rest = data)
    ∧ 85 + ((get_template tt vendor).row_height * 1.5 + 10) +
        (get_template tt vendor).row_height * 1.2 * 2 + 25 +
        ((prepare_data_records layout (get_template tt vendor) data).length : ℚ) *
          (get_template tt vendor).row_height ≤ layout.content_height := by
  refine ⟨prepare_data_records_eq_take layout (get_template tt vendor) data,
    ⟨data.drop (calculate_max_data_rows layout (get_template tt vendor)).toNat, ?_⟩, ?_⟩
  · rw [prepare_data_records_eq_take]
    exact List.take_append_drop _ _
  · have hrh : 0 < (get_template tt vendor).row_height := by
      cases tt <;>
        simp only [get_template, get_cash_out_template, get_cash_in_template,
          get_budget_template, get_unpaid_template, get_aging_template, get_gl_template] <;>
        (try split_ifs) <;> norm_num
    have h10 : 120 + (39 / 10) * (get_template tt vendor).row_height +
        10 * (get_template tt vendor).row_height ≤ layout.content_height := by
      rcases hlay with h | h <;> subst h <;> cases tt <;>
        simp only [get_template, get_cash_out_template, get_cash_in_template,
          get_budget_template, get_unpaid_template, get_aging_template, get_gl_template,
          PageLayout.content_height, PageLayout.portrait, PageLayout.landscape] <;>
        (try split_ifs) <;> norm_num
    exact prepare_data_records_fit hrh h10 data

/-- Witness for C8 at the spec scenario: a CASH_OUT table with 60
transactions on a portrait page keeps a prefix that, together with the
reserved chrome, fits the page. -/
theorem c8_overflow_truncation_witness :
    85 + ((get_template TableType.CASH_OUT "AKAM_NEW").row_height * 1.5 + 10) +
      (get_template TableType.CASH_OUT "AKAM_NEW").row_height * 1.2 * 2 + 25 +
      ((prepare_data_records PageLayout.portrait (get_template TableType.CASH_OUT "AKAM_NEW")
        (List.range 60)).length : ℚ) * (get_template TableType.CASH_OUT "AKAM_NEW").row_height ≤
    PageLayout.portrait.content_height :=
  (c8_overflow_truncation TableType.CASH_OUT "AKAM_NEW" PageLayout.portrait
    (List.range 60) (Or.inl rfl)).2.2
